import Mathlib

/-!
Shallow embedding of the houseback signup flow.

Sources embedded:
- `src/schema/register-service-schema.ts` (zod schema: email grammar, name ≥ 3, password ≥ 8)
- `src/services/auth.ts` (`registerService`: hash, uuid payload, insert inside try/catch)
- `src/controllers/auth.ts` (`registerController`: validate → 400, service → 201, catch → 500)
- `src/routes/auth/signup.ts` (`signupHandler`: returns a plain object when body missing)
- `src/server.ts` (inline `POST /signup` handler: warning log with raw credentials,
  non-returning 406 branch, fire-and-forget `db.raw` insert with ON CONFLICT DO NOTHING,
  unconditional 200)
- `src/db/connection.ts` / migration: `users` table with a unique constraint on `email`.

Effects are made explicit: the database is a list of rows threaded through the functions,
log output is a list of strings, and the environment `Env` supplies the hasher outcome,
the generated uuid, the clock and database availability.
-/

namespace Houseback

/-- A row of the `users` table (id, name, email, password column, timestamps). -/
structure UserRow where
  id : String
  name : String
  email : String
  password : String
  created_at : Nat
  updated_at : Nat
deriving DecidableEq

/-- The `users` table: a list of rows. -/
abbrev Table := List UserRow

/-- Errors a database insert can surface: the unique-email constraint violation, or the
storage backend being unavailable (transient internal persistence error). -/
inductive DbError
  | uniqueViolation
  | unavailable
deriving DecidableEq

/-- `db("users").insert(payload)` (services/auth.ts): a plain INSERT. It fails with a
uniqueness violation when a row with the same email exists, and with `unavailable` when
the storage backend is down. On failure the table is unchanged. -/
def dbInsertUsers (avail : Bool) (t : Table) (r : UserRow) : Except DbError Table :=
  if !avail then .error .unavailable
  else if t.any (fun row => row.email == r.email) then .error .uniqueViolation
  else .ok (t ++ [r])

/-- Outcome of the raw `INSERT ... ON CONFLICT (email) DO NOTHING` issued by server.ts. -/
inductive RawOutcome
  | inserted
  | conflictNoop
  | failed
deriving DecidableEq

/-- `db.raw("INSERT INTO users (email, password) VALUES (?, ?) ON CONFLICT (email) DO
NOTHING", ...)` (server.ts): a duplicate email silently no-ops instead of failing; an
unavailable backend rejects the returned promise. -/
def rawInsertOnConflictDoNothing (avail : Bool) (t : Table) (r : UserRow) :
    RawOutcome × Table :=
  if !avail then (.failed, t)
  else if t.any (fun row => row.email == r.email) then (.conflictNoop, t)
  else (.inserted, t ++ [r])

/-- Characters allowed in the local part of an email by zod's default email regexp. -/
def isLocalChar (c : Char) : Bool :=
  c.isAlphanum || c == '_' || c == Char.ofNat 39 || c == '+' || c == '-' || c == '.'

/-- Characters allowed as the last local-part character (no dot directly before `@`). -/
def isLocalEndChar (c : Char) : Bool :=
  c.isAlphanum || c == '_' || c == '+' || c == '-'

/-- Characters allowed after the first character of a domain label. -/
def isLabelChar (c : Char) : Bool :=
  c.isAlphanum || c == '-'

/-- Split a character list at every occurrence of the given separator character
(semantics of `String.splitOn` for a one-character separator). -/
def splitOnChar (sep : Char) : List Char → List (List Char)
  | [] => [[]]
  | c :: rest =>
      let r := splitOnChar sep rest
      if c == sep then [] :: r
      else
        match r with
        | [] => [[c]]
        | g :: gs => (c :: g) :: gs

/-- A domain label: leading alphanumeric character, then alphanumerics or hyphens. -/
def validLabel : List Char → Bool
  | [] => false
  | c :: rest => c.isAlphanum && rest.all isLabelChar

/-- The final domain component: at least two letters. -/
def validTld (l : List Char) : Bool :=
  decide (2 ≤ l.length) && l.all Char.isAlpha

/-- The domain of an email: one or more labels, a dot, then the top-level part. -/
def validDomain (l : List Char) : Bool :=
  let parts := splitOnChar '.' l
  decide (2 ≤ parts.length) && parts.dropLast.all validLabel && validTld (parts.getLastD [])

/-- Whether two consecutive dots occur (the regexp forbids `..` anywhere). -/
def hasDoubleDot : List Char → Bool
  | c1 :: c2 :: rest => (c1 == '.' && c2 == '.') || hasDoubleDot (c2 :: rest)
  | _ => false

/-- Whether the string starts with a dot (forbidden by the regexp). -/
def startsWithDot : List Char → Bool
  | [] => false
  | c :: _ => c == '.'

/-- The local part: permitted characters only, and the character directly before `@`
must be alphanumeric, `_`, `+` or `-`; empty local parts are rejected. -/
def validLocal (l : List Char) : Bool :=
  l.all isLocalChar && isLocalEndChar (l.getLastD '.')

/-- `z.email` of `register-service-schema.ts`: zod's default email-address grammar —
one `@`, no leading dot, no `..`, constrained local part, labelled domain ending in a
two-letter-or-longer alphabetic top-level part. -/
def isEmail (s : String) : Bool :=
  match splitOnChar '@' s.data with
  | [loc, domain] =>
      !(startsWithDot s.data) && !(hasDoubleDot s.data) && validLocal loc && validDomain domain
  | _ => false

/-- One field-level validation issue of the registration schema. -/
inductive FieldIssue
  | invalidEmail
  | nameTooShort
  | passwordTooShort
deriving DecidableEq

/-- `registerServiceSchema.safeParse` (schema/register-service-schema.ts): each of the
three field rules is checked independently and all issues are collected; parsing
succeeds exactly when the returned issue list is empty. -/
def registerServiceSchema (email name password : String) : List FieldIssue :=
  (if isEmail email then [] else [.invalidEmail]) ++
  (if 3 ≤ name.length then [] else [.nameTooShort]) ++
  (if 8 ≤ password.length then [] else [.passwordTooShort])

/-- The message zod attaches to a field issue. -/
def issueMessage : FieldIssue → String
  | .invalidEmail => "Invalid Email"
  | .nameTooShort => "String must contain at least 3 characters"
  | .passwordTooShort => "String must contain at least 8 characters"

/-- `validatedData.error.message`: a rendering of all collected issues. -/
def zodErrorMessage (issues : List FieldIssue) : String :=
  String.intercalate "; " (issues.map issueMessage)

/-- Failure of the password hasher. -/
inductive HashError
  | hashingFailure
deriving DecidableEq

/-- Environment of one request: the hasher's behaviour, the uuid `v4()` will generate,
the current clock value used for the timestamps, and database availability. -/
structure Env where
  hashFn : String → Except HashError String
  uuid : String
  now : Nat
  dbAvail : Bool

/-- Modelled from the spec: `src/services/utils/hash-password.ts` is referenced by
`services/auth.ts` and the repository docs (bcrypt with salt rounds 10) but the file
itself is absent from the tree. Per the spec (§4.2), the hasher maps a plaintext to a
hash string and signals a `HashingFailure` only on unexpected runtime faults; the
environment chooses which outcome occurs. -/
def hashPassword (env : Env) (password : String) : Except HashError String :=
  env.hashFn password

/-- The public user view placed under `data` in the service response: id, name, email
and timestamps — by construction it has no password or password-hash field. -/
structure PublicUser where
  id : String
  name : String
  email : String
  created_at : Nat
  updated_at : Nat
deriving DecidableEq

/-- `RegisterServiceResponse` (services/auth.ts): message, status and nullable data. -/
structure RegisterServiceResponse where
  message : String
  status : Nat
  data : Option PublicUser
deriving DecidableEq

/-- Result of a resolved `registerService` call: its response value, the resulting
table, and the log lines it emitted. -/
structure ServiceOut where
  resp : RegisterServiceResponse
  table : Table
  log : List String
deriving DecidableEq

/-- `registerService` (services/auth.ts). `await hashPassword(password)` happens before
the `try`, so a hasher rejection propagates (`.error`). The insert sits inside
`try/catch`: success yields message `Usuário criado com sucesso`/201 with the public
data, and any insert error is caught and turned into a resolved
`Erro ao criar usuário`/500/null value. -/
def registerService (env : Env) (t : Table) (email name password : String) :
    Except HashError ServiceOut :=
  match hashPassword env password with
  | .error e => .error e
  | .ok hashedPassword =>
    let payload : UserRow :=
      { id := env.uuid, name := name, email := email, password := hashedPassword,
        created_at := env.now, updated_at := env.now }
    match dbInsertUsers env.dbAvail t payload with
    | .ok t2 =>
        let data : PublicUser :=
          { id := env.uuid, name := name, email := email,
            created_at := env.now, updated_at := env.now }
        .ok { resp := { message := "Usuário criado com sucesso", status := 201,
                        data := some data },
              table := t2,
              log := ["info: id:" ++ data.id ++ " name:" ++ data.name ++
                      " email:" ++ data.email] }
    | .error _ =>
        .ok { resp := { message := "Erro ao criar usuário", status := 500, data := none },
              table := t,
              log := ["error: error"] }

/-- Whether the service promise resolved (as opposed to rejecting). -/
def resolves (r : Except HashError ServiceOut) : Bool :=
  match r with
  | .ok _ => true
  | .error _ => false

/-- The body of one HTTP response: either a bare message object, the full
`RegisterServiceResponse` serialized by `res.json(user)`, or a bare user record. -/
inductive Body
  | msg (m : String)
  | serviceResp (r : RegisterServiceResponse)
  | record (u : PublicUser)
deriving DecidableEq

/-- One HTTP response: status code and body. -/
structure HttpResponse where
  status : Nat
  body : Body
deriving DecidableEq

/-- Result of a handler run: every response it sent (in order), the resulting table,
and the log lines emitted. -/
structure HandlerOut where
  responses : List HttpResponse
  table : Table
  log : List String
deriving DecidableEq

/-- `registerController` (controllers/auth.ts): validates with
`registerServiceSchema.safeParse`; on failure responds 400 with the zod error message
and returns. Otherwise it awaits `registerService` inside `try`: a resolved value is
sent as `res.status(201).json(user)` — status 201 whatever the value's inner `status`
field says — and a rejection reaches the `catch`, which responds 500. -/
def registerController (env : Env) (t : Table) (email name password : String) :
    HandlerOut :=
  match registerServiceSchema email name password with
  | [] =>
    match registerService env t email name password with
    | .ok s =>
        { responses := [⟨201, Body.serviceResp s.resp⟩],
          table := s.table,
          log := s.log ++ ["success: User created"] }
    | .error _ =>
        { responses := [⟨500, Body.msg "Erro ao cadastrar usuário"⟩],
          table := t, log := [] }
  | issue :: rest =>
      { responses := [⟨400, Body.msg (zodErrorMessage (issue :: rest))⟩],
        table := t, log := [] }

/-- The raw `{email, name, password}` request body of the signup route. -/
structure SignupBody where
  email : String
  name : String
  password : String
deriving DecidableEq

/-- `signupHandler` (routes/auth/signup.ts): when `req.body` is missing it returns a
plain object (`status: 401, message: ...`) without calling `res.status`/`res.json`, so
no HTTP response is sent at all; otherwise it delegates to `registerController`. -/
def signupHandler (env : Env) (t : Table) (body : Option SignupBody) : HandlerOut :=
  match body with
  | none => { responses := [], table := t, log := ["success: Signup endpoint hit"] }
  | some b =>
      let out := registerController env t b.email b.name b.password
      { out with log := "success: Signup endpoint hit" :: out.log }

/-- Request body seen by the inline server.ts handler: only `email` and `password` are
destructured; a missing field is JavaScript `undefined`. -/
structure ServerReq where
  email : Option String
  password : Option String
deriving DecidableEq

/-- JavaScript truthiness of a destructured string field (`undefined` and the empty
string are falsy). -/
def truthy : Option String → Bool
  | none => false
  | some s => !s.data.isEmpty

/-- How a possibly-undefined field prints inside a template literal. -/
def jsShow : Option String → String
  | none => "undefined"
  | some s => s

/-- The inline `POST /signup` handler of server.ts. In source order: it logs
`Signup endpoint hit`, destructures `email`/`password`, logs
`` `Email:${email}, Password:${password}` `` (the raw credentials), sends 406 when
`email` is falsy WITHOUT returning, fires `db.raw(INSERT ... ON CONFLICT DO NOTHING)`
with `.then(...)` but never awaits it (the `catch` only guards synchronous throws, and
an async rejection skips the `.then` callback silently), and finally always sends
200 `Signup endpoint is working`. A missing field would be an undefined binding, so the
query's promise rejects without touching the table in that case. -/
def serverSignup (env : Env) (t : Table) (req : ServerReq) : HandlerOut :=
  let email := jsShow req.email
  let password := jsShow req.password
  let log1 := ["success: Signup endpoint hit",
               "warning: Email:" ++ email ++ ", Password:" ++ password]
  let early : List HttpResponse :=
    if truthy req.email then [] else [⟨406, Body.msg "Email is required"⟩]
  let row : UserRow :=
    { id := env.uuid, name := "", email := email, password := password,
      created_at := env.now, updated_at := env.now }
  let out :=
    if req.email.isNone || req.password.isNone then (RawOutcome.failed, t)
    else rawInsertOnConflictDoNothing env.dbAvail t row
  let asyncLog : List String :=
    match out.1 with
    | .failed => []
    | _ => ["success: User with email " ++ email ++ " created successfully"]
  { responses := early ++ [⟨200, Body.msg "Signup endpoint is working"⟩],
    table := out.2,
    log := log1 ++ asyncLog }

/-- An environment whose hasher succeeds deterministically and whose storage is up. -/
def envOk : Env :=
  { hashFn := fun p => .ok ("hashed:" ++ p), uuid := "uuid-1", now := 0, dbAvail := true }

/-- Same hasher, but the storage backend is unavailable: the insert fails with an
internal persistence error. -/
def envDbDown : Env :=
  { hashFn := fun p => .ok ("hashed:" ++ p), uuid := "uuid-1", now := 0, dbAvail := false }

/-- An environment whose hasher fails with a runtime fault. -/
def envHashFail : Env :=
  { hashFn := fun _ => .error .hashingFailure, uuid := "uuid-1", now := 0, dbAvail := true }

/-- The value `registerService` resolves with when the insert throws. -/
def serviceFailureResp : RegisterServiceResponse :=
  { message := "Erro ao criar usuário", status := 500, data := none }

/-- The value `registerService` resolves with on a successful insert. -/
def serviceSuccessResp (u : PublicUser) : RegisterServiceResponse :=
  { message := "Usuário criado com sucesso", status := 201, data := some u }

/-- The public record created for the spec's example input under `envOk`. -/
def johnRecord : PublicUser :=
  { id := "uuid-1", name := "John Doe", email := "john@example.com",
    created_at := 0, updated_at := 0 }

/-- Claim C1: a signup whose input passes validation but whose database insert fails with
an internal persistence error is answered with HTTP 500, not 201. The code does the
opposite: `registerService` catches the insert error and resolves with the
message/500/null value, and `registerController` sends every resolved value as
`res.status(201)` — so the response is HTTP 201 carrying a body whose inner `status`
field says 500. This theorem evaluates the code at the failing input. -/
theorem claim1_insert_failure_yields_http_201 :
    (registerController envDbDown [] "john@example.com" "John Doe" "mypassword123").responses =
      [⟨201, Body.serviceResp serviceFailureResp⟩] := by
  decide

/-- Claim C2: the plaintext password must never be stored or logged. The inline server.ts
handler violates both halves at a concrete request: the log contains the raw
`Email:..., Password:...` line, and the row written by its raw INSERT stores the
plaintext in the `password` column (no hasher is involved on this path). -/
theorem claim2_plaintext_logged_and_stored :
    ((serverSignup envOk [] { email := some "a@x.com", password := some "mypassword123" }).log.contains
      "warning: Email:a@x.com, Password:mypassword123") = true ∧
    (serverSignup envOk [] { email := some "a@x.com", password := some "mypassword123" }).table =
      [{ id := "uuid-1", name := "", email := "a@x.com", password := "mypassword123",
         created_at := 0, updated_at := 0 }] := by
  decide

/-- First registration of `a@x.com` through the controller path. -/
def claim3FirstCall : HandlerOut :=
  registerController envOk [] "a@x.com" "Alice" "password123"

/-- Second registration of the same email with a different name and password. -/
def claim3SecondCall : HandlerOut :=
  registerController envOk claim3FirstCall.table "a@x.com" "Bobby" "password456"

/-- Claim C3: registering the same email twice should yield Created then a
distinguishable 409 Conflict, with one row in the table. The code never produces 409:
on the controller path the second call's unique-constraint violation is swallowed by
the service's catch and sent as HTTP 201 (body carrying 500), and on the server.ts path
the ON CONFLICT DO NOTHING insert silently no-ops and the handler answers 200. Exactly
one row does remain for the email. -/
theorem claim3_duplicate_email_never_conflict :
    claim3FirstCall.responses.map (fun r => r.status) = [201] ∧
    claim3SecondCall.responses.map (fun r => r.status) = [201] ∧
    claim3SecondCall.responses.map (fun r => r.body) = [Body.serviceResp serviceFailureResp] ∧
    claim3SecondCall.table.length = 1 ∧
    (serverSignup envOk claim3FirstCall.table
      { email := some "a@x.com", password := some "password456" }).responses.map
        (fun r => r.status) = [200] := by
  decide

/-- Claim C4: every request should receive exactly one response. The inline server.ts
handler sends TWO responses (406 then 200) when `email` is missing, because its 406
branch does not return; and `signupHandler` of routes/auth/signup.ts sends ZERO
responses when `req.body` is missing, because it returns a plain object instead of
calling `res`. -/
theorem claim4_dual_and_zero_responses :
    (serverSignup envOk [] { email := none, password := none }).responses.map (fun r => r.status) =
      [406, 200] ∧
    (signupHandler envOk [] none).responses = [] := by
  decide

/-- Claim C5, counterexample: for the spec's example valid input the 201 body is NOT the
bare created record — it is the `RegisterServiceResponse` wrapper whose `message` and
`status` fields sit beside the record, the record itself nested under `data`. -/
theorem claim5_counterexample_body_is_wrapper :
    (registerController envOk [] "john@example.com" "John Doe" "mypassword123").responses.map
        (fun r => r.body) = [Body.serviceResp (serviceSuccessResp johnRecord)] ∧
    Body.serviceResp (serviceSuccessResp johnRecord) ≠ Body.record johnRecord := by
  decide

/-- Claim C5 as amended: for every valid input (schema passes), with hashing succeeding,
storage available and the email fresh, the controller responds 201 and the body is the
wrapper `message`/`status: 201`/`data`, where `data` is exactly the record
`id`/`name`/`email`/`created_at`/`updated_at` — id the generated uuid, name and email
equal to the input, and no password or hash field anywhere in the body (`PublicUser`
has none, and the wrapper adds only `message` and `status`). -/
theorem claim5_valid_input_201_wrapped_record (env : Env) (t : Table)
    (email name password hs : String)
    (hv : registerServiceSchema email name password = [])
    (hh : env.hashFn password = .ok hs)
    (hd : env.dbAvail = true)
    (hf : t.any (fun row => row.email == email) = false) :
    (registerController env t email name password).responses =
      [⟨201, Body.serviceResp (serviceSuccessResp
        { id := env.uuid, name := name, email := email,
          created_at := env.now, updated_at := env.now })⟩] := by
  simp [registerController, registerService, hashPassword, dbInsertUsers,
    serviceSuccessResp, hv, hh, hd, hf]

/-- Witness for the amended C5 at the spec's example input. -/
theorem claim5_valid_input_201_wrapped_record_witness :
    (registerController envOk [] "john@example.com" "John Doe" "mypassword123").responses =
      [⟨201, Body.serviceResp (serviceSuccessResp johnRecord)⟩] :=
  claim5_valid_input_201_wrapped_record envOk [] "john@example.com" "John Doe" "mypassword123"
    "hashed:mypassword123" (by decide) rfl rfl rfl

/-- Claim C6: for every invalid input (bad email, or name shorter than 3, or password
shorter than 8) the controller responds 400, the table is untouched, and the result is
the same under any environment — so neither the hasher nor the database is consulted. -/
theorem claim6_invalid_input_400_no_writes (env env2 : Env) (t : Table)
    (email name password : String)
    (hv : isEmail email = false ∨ name.length < 3 ∨ password.length < 8) :
    (registerController env t email name password).responses.map (fun r => r.status) = [400] ∧
    (registerController env t email name password).table = t ∧
    registerController env t email name password = registerController env2 t email name password := by
  have hschema : registerServiceSchema email name password ≠ [] := by
    rcases hv with h | h | h
    · apply List.ne_nil_of_mem (a := FieldIssue.invalidEmail)
      simp [registerServiceSchema, h]
    · apply List.ne_nil_of_mem (a := FieldIssue.nameTooShort)
      have hn : ¬ 3 ≤ name.length := by omega
      simp [registerServiceSchema, hn]
    · apply List.ne_nil_of_mem (a := FieldIssue.passwordTooShort)
      have hp : ¬ 8 ≤ password.length := by omega
      simp [registerServiceSchema, hp]
  cases hq : registerServiceSchema email name password with
  | nil => exact absurd hq hschema
  | cons a l => simp [registerController, hq]

/-- Witness for C6 at the spec's example invalid input, under two environments that
differ in storage availability. -/
theorem claim6_invalid_input_400_no_writes_witness :
    ((registerController envOk [] "not-an-email" "ab" "short").responses.map
      (fun r => r.status) = [400]) ∧
    (registerController envOk [] "not-an-email" "ab" "short").table = [] ∧
    registerController envOk [] "not-an-email" "ab" "short" =
      registerController envDbDown [] "not-an-email" "ab" "short" :=
  claim6_invalid_input_400_no_writes envOk envDbDown [] "not-an-email" "ab" "short"
    (Or.inl (by decide))

/-- Claim C7: the three validation rules are evaluated independently and every violated
rule is reported: each issue is in the collected list exactly when its rule is broken,
for every input, so multiple violations always appear together. -/
theorem claim7_every_violated_rule_reported (email name password : String) :
    (FieldIssue.invalidEmail ∈ registerServiceSchema email name password ↔
        isEmail email = false) ∧
    (FieldIssue.nameTooShort ∈ registerServiceSchema email name password ↔
        name.length < 3) ∧
    (FieldIssue.passwordTooShort ∈ registerServiceSchema email name password ↔
        password.length < 8) := by
  unfold registerServiceSchema
  by_cases h1 : isEmail email <;> by_cases h2 : 3 ≤ name.length <;>
    by_cases h3 : 8 ≤ password.length <;>
    simp [h1, h2, h3] <;> omega

/-- Claim C8: validation failure is idempotent — a failed call performs no writes, so
repeating `register` with the same invalid input on the resulting state produces the
identical 400 response with the identical validation error set. -/
theorem claim8_invalid_input_idempotent (env : Env) (t : Table) (email name password : String)
    (hv : registerServiceSchema email name password ≠ []) :
    registerController env (registerController env t email name password).table email name password
      = registerController env t email name password := by
  cases hq : registerServiceSchema email name password with
  | nil => exact absurd hq hv
  | cons a l => simp [registerController, hq]

/-- Witness for C8 at the spec's example invalid input. -/
theorem claim8_invalid_input_idempotent_witness :
    registerController envOk
        (registerController envOk [] "not-an-email" "ab" "short").table "not-an-email" "ab" "short"
      = registerController envOk [] "not-an-email" "ab" "short" :=
  claim8_invalid_input_idempotent envOk [] "not-an-email" "ab" "short" (by decide)

/-- Claim C9, counterexample: `registerService` does NOT resolve for every input —
`await hashPassword(password)` sits before the `try`, so a hasher fault rejects the
promise, and the controller's catch (the HTTP 500 path) IS reachable that way. -/
theorem claim9_counterexample_hasher_rejection_propagates :
    registerService envHashFail [] "john@example.com" "John Doe" "mypassword123" =
      Except.error HashError.hashingFailure ∧
    (registerController envHashFail [] "john@example.com" "John Doe" "mypassword123").responses.map
      (fun r => r.status) = [500] :=
  ⟨rfl, by decide⟩

/-- Claim C9 as amended: whenever hashing succeeds, the promise returned by
`registerService` always resolves — every thrown persistence error is caught inside and
turned into the resolved message/500/null value — so the catch branch in
`registerController` is unreachable via a failing database insert. -/
theorem claim9_hash_ok_service_resolves (env : Env) (t : Table)
    (email name password hs : String)
    (hh : env.hashFn password = .ok hs) :
    resolves (registerService env t email name password) = true ∧
    (env.dbAvail = false →
      registerService env t email name password =
        .ok { resp := serviceFailureResp, table := t, log := ["error: error"] }) := by
  refine ⟨?_, ?_⟩
  · simp only [registerService, hashPassword, hh]
    split <;> rfl
  · intro hd
    simp [registerService, hashPassword, dbInsertUsers, serviceFailureResp, hh, hd]

/-- Witness for the amended C9 with the storage backend down. -/
theorem claim9_hash_ok_service_resolves_witness :
    resolves (registerService envDbDown [] "john@example.com" "John Doe" "mypassword123") = true ∧
    (envDbDown.dbAvail = false →
      registerService envDbDown [] "john@example.com" "John Doe" "mypassword123" =
        .ok { resp := serviceFailureResp, table := [], log := ["error: error"] }) :=
  claim9_hash_ok_service_resolves envDbDown [] "john@example.com" "John Doe" "mypassword123"
    "hashed:mypassword123" rfl

/-- Claim C10: every /signup request to the inline server.ts handler that includes an
email is answered 200 `Signup endpoint is working`, and — since the environment (hence
the fate of the fire-and-forget insert: success, conflict no-op, or failure) is
universally quantified — the status and body are identical whatever the insert does. -/
theorem claim10_signup_response_independent_of_db (env : Env) (t : Table) (req : ServerReq)
    (he : truthy req.email = true) :
    (serverSignup env t req).responses = [⟨200, Body.msg "Signup endpoint is working"⟩] := by
  simp [serverSignup, he]

/-- Witness for C10 with the storage backend down: the response is still 200. -/
theorem claim10_signup_response_independent_of_db_witness :
    (serverSignup envDbDown [] { email := some "a@x.com", password := some "pw" }).responses =
      [⟨200, Body.msg "Signup endpoint is working"⟩] :=
  claim10_signup_response_independent_of_db envDbDown []
    { email := some "a@x.com", password := some "pw" } (by decide)

end Houseback
